import Mathlib

/-!
Verification of the PayU Finance WhatsApp loan chatbot (`finhackers.py`,
`main_app.py`, `whatsapp_messaging.py`) against its natural-language
specification.  The Python sources are shallowly embedded below: Python
floats are modelled as rationals, Python strings as Lean strings (with
ASCII models of `str.strip` / `str.lower`), Python dicts holding
conversation answers as functions `String → Option AnswerValue`, and the
seeded module-level random generator as an explicit generator record whose
state is threaded by hand.  Fallible code is modelled with `Except` /
`Option`.
-/

namespace Finhackers

/-! ## Python string primitives -/

/-- Model of the whitespace class removed by Python `str.strip()`
(ASCII subset: space, tab, newline, carriage return, vertical tab,
form feed). -/
def isPySpace (c : Char) : Bool :=
  c = ' ' || c = '\t' || c = '\n' || c = '\r' || c = '\x0b' || c = '\x0c'

/-- Model of Python `str.strip()`: drop leading and trailing whitespace. -/
def pyStrip (s : String) : String :=
  ⟨((s.toList.dropWhile isPySpace).reverse.dropWhile isPySpace).reverse⟩

/-- Model of Python `str.lower()` (character-wise lowering; characters
without a lowercase form, e.g. Devanagari, are unchanged). -/
def pyLower (s : String) : String :=
  ⟨s.toList.map Char.toLower⟩

/-- Helper for `pySplit`: walk the characters, accumulating the current
word (reversed); whitespace closes the word, empty pieces are dropped. -/
def splitWsAux : List Char → List Char → List String
  | [], cur => if cur.isEmpty then [] else [⟨cur.reverse⟩]
  | c :: rest, cur =>
      if isPySpace c then
        if cur.isEmpty then splitWsAux rest []
        else ⟨cur.reverse⟩ :: splitWsAux rest []
      else splitWsAux rest (c :: cur)

/-- Model of Python `str.split()` with no argument: split on whitespace
runs, discarding empty pieces. -/
def pySplit (s : String) : List String :=
  splitWsAux s.toList []

/-- The token set of a string, as used by `similarity_score`
(`set(a.split())` in the source). -/
def tokenSet (s : String) : Finset String :=
  (pySplit s).toFinset

/-- `x.replace(",", "")` from `parse_numeric`. -/
def removeCommas (s : String) : String :=
  ⟨s.toList.filter (fun c => c ≠ ',')⟩

/-- Bool test for Python `needle in haystack` on lists of characters:
`matchFront n h` holds when `n` is an initial segment of `h`. -/
def matchFront : List Char → List Char → Bool
  | [], _ => true
  | _ :: _, [] => false
  | a :: as, b :: bs => a = b && matchFront as bs

/-- Python `needle in haystack` (substring containment) on strings. -/
def hasSub (needle haystack : String) : Bool :=
  go needle.toList haystack.toList
where
  go (n : List Char) : List Char → Bool
    | [] => n.isEmpty
    | c :: t => matchFront n (c :: t) || go n t

/-! ## Python numeric primitives -/

/-- Banker's rounding of a rational to the nearest integer, as Python
`round` does on an exact value (ties go to the even integer). -/
def roundHalfEven (q : ℚ) : ℤ :=
  if q - (⌊q⌋ : ℚ) < 1/2 then ⌊q⌋
  else if 1/2 < q - (⌊q⌋ : ℚ) then ⌊q⌋ + 1
  else if ⌊q⌋ % 2 = 0 then ⌊q⌋ else ⌊q⌋ + 1

/-- Python `round(x, 2)` modelled on rationals. -/
def pyRound2 (q : ℚ) : ℚ :=
  (roundHalfEven (q * 100) : ℚ) / 100

/-- Python `int(x)` on a number: truncation toward zero. -/
def pyTrunc (q : ℚ) : ℤ :=
  if 0 ≤ q then ⌊q⌋ else ⌈q⌉

/-! ## Data model: LoanApplication and DecisionResult

Embeds the pydantic models of `finhackers.py` lines 440-466 /
`main_app.py` lines 429-455.  The pydantic `Field` bounds become the
`Valid` predicate. -/

structure LoanApplication where
  application_id : String
  customer_phone : String
  full_name : String
  age : ℤ
  employment_status : String
  monthly_income : ℚ
  requested_amount : ℚ
  purpose : String
  consent_to_credit_check : Bool
deriving DecidableEq

/-- The pydantic field constraints: `age` in [18, 75], positive incomes
and amounts. -/
def LoanApplication.Valid (a : LoanApplication) : Prop :=
  18 ≤ a.age ∧ a.age ≤ 75 ∧ 0 < a.monthly_income ∧ 0 < a.requested_amount

structure DecisionResult where
  approved : Bool
  offer_amount : ℚ
  apr : ℚ
  max_term_months : ℤ
  reason : Option String
  reference_id : String
deriving DecidableEq

/-! ## The local decision rules (`CreditDecisionClient._local_rules`)

The source seeds the module-level `random` generator with the
application id and takes three draws (`randint(600, 780)`,
`uniform(0.2, 0.85)`, `random()`).  The three draws are captured in a
`RandDraws` record; `localRules` is the body of `_local_rules` given such
a record, and `localRulesSeeded` below threads an explicit generator so
that the seeding discipline itself is visible. -/

structure RandDraws where
  randintDraw : ℤ
  uniformDraw : ℚ
  randomDraw : ℚ
deriving DecidableEq

/-- `credit_score = max(520, min(850, randint(600,780)
  + int(monthly_income/10000)*5 - int(requested_amount/50000)*5))`. -/
def creditScoreOf (d : RandDraws) (a : LoanApplication) : ℤ :=
  max 520 (min 850
    (d.randintDraw + pyTrunc (a.monthly_income / 10000) * 5
      - pyTrunc (a.requested_amount / 50000) * 5))

/-- `utilization_ratio = round(random.uniform(0.2, 0.85), 2)`. -/
def utilizationOf (d : RandDraws) : ℚ :=
  pyRound2 d.uniformDraw

/-- `fraud_signal = random.random() < 0.05`. -/
def fraudSignalOf (d : RandDraws) : Bool :=
  decide (d.randomDraw < 5/100)

/-- `serviceability = monthly_income
  - requested_amount / max(12, monthly_income / 1000)`. -/
def serviceabilityOf (a : LoanApplication) : ℚ :=
  a.monthly_income - a.requested_amount / max 12 (a.monthly_income / 1000)

/-- `debt_to_income = requested_amount / max(monthly_income, 1)`. -/
def debtToIncomeOf (a : LoanApplication) : ℚ :=
  a.requested_amount / max a.monthly_income 1

/-- The `approved` conjunction of `_local_rules`, in source order. -/
def approvedFlag (d : RandDraws) (a : LoanApplication) : Bool :=
  decide (21 ≤ a.age) && decide (a.age ≤ 70)
    && decide (15000 ≤ a.monthly_income)
    && decide (debtToIncomeOf a ≤ 10)
    && decide (utilizationOf d ≤ 7/10)
    && decide (640 ≤ creditScoreOf d a)
    && decide (a.requested_amount * (1/100) < serviceabilityOf a)
    && !fraudSignalOf d
    && a.consent_to_credit_check

/-- `apr = round(max(12.49, 18.99 - min(5, (credit_score - 640)/50)), 2)`. -/
def aprOf (d : RandDraws) (a : LoanApplication) : ℚ :=
  pyRound2 (max (1249/100) (1899/100 - min 5 (((creditScoreOf d a : ℚ) - 640) / 50)))

/-- `offer_amount = round(min(requested_amount, monthly_income * 6), 2)`. -/
def offerAmountOf (a : LoanApplication) : ℚ :=
  pyRound2 (min a.requested_amount (a.monthly_income * 6))

/-- The decline-reason if/elif chain of `_local_rules`
(`finhackers.py` 848-865, `main_app.py` 545-562). -/
def reasonOf (d : RandDraws) (a : LoanApplication) : Option String :=
  if approvedFlag d a then none
  else if !a.consent_to_credit_check then
    some "Consent to credit check not provided."
  else if fraudSignalOf d then
    some "Automated checks flagged an inconsistency. Please review."
  else if a.age < 21 ∨ 70 < a.age then
    some "Applicant must be between 21 and 70 years old."
  else if a.monthly_income < 15000 then
    some "Monthly income below ₹15,000 threshold."
  else if creditScoreOf d a < 640 then
    some ("Internal score " ++ toString (creditScoreOf d a)
      ++ " below minimum requirement.")
  else if 7/10 < utilizationOf d then
    some "Utilization ratio too high."
  else if serviceabilityOf a ≤ a.requested_amount * (1/100) then
    some "Repayment capacity insufficient."
  else
    some "Request exceeds permitted debt-to-income ratio."

/-- `CreditDecisionClient._local_rules`, given the three seeded draws. -/
def localRules (d : RandDraws) (a : LoanApplication) : DecisionResult :=
  { approved := approvedFlag d a
    offer_amount := offerAmountOf a
    apr := aprOf d a
    max_term_months := if approvedFlag d a then 60 else 0
    reason := reasonOf d a
    reference_id := a.application_id }

/-- An abstract model of the module-level `random` generator: a state
type, `seedWith` for `random.seed(application_id)`, and the three draw
operations used by `_local_rules`. -/
structure PyRandom (σ : Type) where
  seedWith : String → σ
  nextRandint : σ → ℤ × σ
  nextUniform : σ → ℚ × σ
  nextRandom : σ → ℚ × σ

/-- The three draws `_local_rules` takes after seeding, threading the
generator state in source order. -/
def drawsFrom {σ : Type} (g : PyRandom σ) (s : σ) : RandDraws × σ :=
  let ri := g.nextRandint s
  let ru := g.nextUniform ri.2
  let rr := g.nextRandom ru.2
  (⟨ri.1, ru.1, rr.1⟩, rr.2)

/-- `_local_rules` including the `random.seed(application_id)` call:
the incoming generator state `s0` is discarded by the seeding, exactly
as in the source. -/
def localRulesSeeded {σ : Type} (g : PyRandom σ) (_s0 : σ)
    (a : LoanApplication) : DecisionResult × σ :=
  let s1 := g.seedWith a.application_id
  let dr := drawsFrom g s1
  (localRules dr.1 a, dr.2)

/-- C1: the local-rule engine approves exactly when age is in [21,70],
monthly income is at least 15000, debt-to-income (requested /
max(income,1)) is at most 10, the seed-derived utilization ratio is at
most 0.7, the seed-derived credit score is at least 640, serviceability
exceeds 1% of the requested amount, the seed-derived fraud flag is off,
and consent is given. -/
theorem localRules_approved_iff (d : RandDraws) (a : LoanApplication) :
    (localRules d a).approved = true ↔
      (21 ≤ a.age ∧ a.age ≤ 70) ∧
      15000 ≤ a.monthly_income ∧
      debtToIncomeOf a ≤ 10 ∧
      utilizationOf d ≤ 7/10 ∧
      640 ≤ creditScoreOf d a ∧
      a.requested_amount * (1/100) < serviceabilityOf a ∧
      fraudSignalOf d = false ∧
      a.consent_to_credit_check = true := by
  simp only [localRules, approvedFlag, Bool.and_eq_true, decide_eq_true_eq,
    Bool.not_eq_true']
  tauto

/-! ## C2: decline reasons follow the spec's priority order -/

/-- The decline reason as the specification words it: walk the failure
conditions in the fixed priority order (missing consent, fraud flag, age
bound, income floor, credit-score floor, utilization ceiling,
serviceability floor, debt-to-income ceiling) and report the first one
that fails. -/
def specDeclineReason (d : RandDraws) (a : LoanApplication) : Option String :=
  if !a.consent_to_credit_check then
    some "Consent to credit check not provided."
  else if fraudSignalOf d then
    some "Automated checks flagged an inconsistency. Please review."
  else if a.age < 21 ∨ 70 < a.age then
    some "Applicant must be between 21 and 70 years old."
  else if a.monthly_income < 15000 then
    some "Monthly income below ₹15,000 threshold."
  else if creditScoreOf d a < 640 then
    some ("Internal score " ++ toString (creditScoreOf d a)
      ++ " below minimum requirement.")
  else if 7/10 < utilizationOf d then
    some "Utilization ratio too high."
  else if serviceabilityOf a ≤ a.requested_amount * (1/100) then
    some "Repayment capacity insufficient."
  else if 10 < debtToIncomeOf a then
    some "Request exceeds permitted debt-to-income ratio."
  else none

/-- C2: every declined decision carries exactly one reason, and it is the
one selected by the priority order missing consent > fraud flag > age
bound > income floor > credit-score floor > utilization ceiling >
serviceability floor > debt-to-income ceiling; in particular an
application lacking consent and underage reports the consent reason. -/
theorem localRules_decline_reason (d : RandDraws) (a : LoanApplication)
    (h : (localRules d a).approved = false) :
    (localRules d a).reason = specDeclineReason d a ∧
    ((localRules d a).reason).isSome = true ∧
    (a.consent_to_credit_check = false → a.age < 21 →
      (localRules d a).reason = some "Consent to credit check not provided.") := by
  have happ : approvedFlag d a = false := by simpa [localRules] using h
  have hmain : reasonOf d a = specDeclineReason d a ∧
      (specDeclineReason d a).isSome = true := by
    unfold reasonOf specDeclineReason
    rw [if_neg (by simp [happ])]
    split_ifs with h1 h2 h3 h4 h5 h6 h7 h8
    · exact ⟨rfl, rfl⟩
    · exact ⟨rfl, rfl⟩
    · exact ⟨rfl, rfl⟩
    · exact ⟨rfl, rfl⟩
    · exact ⟨rfl, rfl⟩
    · exact ⟨rfl, rfl⟩
    · exact ⟨rfl, rfl⟩
    · exact ⟨rfl, rfl⟩
    · -- all eight conditions pass, contradicting `approvedFlag d a = false`
      exfalso
      push_neg at h3
      have hc : a.consent_to_credit_check = true := by simpa using h1
      have hf : fraudSignalOf d = false := by simpa using h2
      have happT : approvedFlag d a = true := by
        simp only [approvedFlag, Bool.and_eq_true, decide_eq_true_eq,
          Bool.not_eq_true']
        exact ⟨⟨⟨⟨⟨⟨⟨⟨h3.1, h3.2⟩, not_lt.mp h4⟩, not_lt.mp h8⟩,
          not_lt.mp h6⟩, not_lt.mp h5⟩, not_le.mp h7⟩, hf⟩, hc⟩
      rw [happT] at happ
      exact Bool.noConfusion happ
  refine ⟨by simpa [localRules] using hmain.1, ?_, ?_⟩
  · have := hmain.2
    simp only [localRules]
    rw [hmain.1]
    exact this
  · intro hc hage
    simp only [localRules]
    rw [hmain.1]
    unfold specDeclineReason
    rw [if_pos (by simp [hc])]

/-- Witness for C2: a 19-year-old applicant who also withheld consent is
declined, carries exactly one reason, and (being both underage and
without consent) that reason is the consent-missing one. -/
theorem localRules_decline_reason_witness :
    (localRules ⟨700, 1/2, 9/10⟩
        ⟨"app-1", "911", "N", 19, "Salaried", 20000, 50000, "Travel", false⟩).reason =
      specDeclineReason ⟨700, 1/2, 9/10⟩
        ⟨"app-1", "911", "N", 19, "Salaried", 20000, 50000, "Travel", false⟩ ∧
    ((localRules ⟨700, 1/2, 9/10⟩
        ⟨"app-1", "911", "N", 19, "Salaried", 20000, 50000, "Travel", false⟩).reason).isSome = true ∧
    ((⟨"app-1", "911", "N", 19, "Salaried", 20000, 50000, "Travel", false⟩ :
        LoanApplication).consent_to_credit_check = false →
      (⟨"app-1", "911", "N", 19, "Salaried", 20000, 50000, "Travel", false⟩ :
        LoanApplication).age < 21 →
      (localRules ⟨700, 1/2, 9/10⟩
        ⟨"app-1", "911", "N", 19, "Salaried", 20000, 50000, "Travel", false⟩).reason =
        some "Consent to credit check not provided.") :=
  localRules_decline_reason ⟨700, 1/2, 9/10⟩
    ⟨"app-1", "911", "N", 19, "Salaried", 20000, 50000, "Travel", false⟩
    (by simp [localRules, approvedFlag])

/-! ## C3: determinism of the seeded local rules -/

/-- C3: `_local_rules` first reseeds the generator from the application
id, so whatever the generator state was before the call, two evaluations
of applications with identical fields return bit-identical decisions. -/
theorem localRulesSeeded_deterministic {σ : Type} (g : PyRandom σ)
    (s1 s2 : σ) (a b : LoanApplication)
    (h1 : a.application_id = b.application_id)
    (h2 : a.customer_phone = b.customer_phone)
    (h3 : a.full_name = b.full_name)
    (h4 : a.age = b.age)
    (h5 : a.employment_status = b.employment_status)
    (h6 : a.monthly_income = b.monthly_income)
    (h7 : a.requested_amount = b.requested_amount)
    (h8 : a.purpose = b.purpose)
    (h9 : a.consent_to_credit_check = b.consent_to_credit_check) :
    (localRulesSeeded g s1 a).1 = (localRulesSeeded g s2 b).1 := by
  have hab : a = b := by cases a; cases b; simp_all
  subst hab
  rfl

/-- A concrete generator model used to witness C3: the state records
whether the generator has been used at all, draws are constant. -/
def witnessRandom : PyRandom Bool :=
  { seedWith := fun _ => true
    nextRandint := fun s => (700, s)
    nextUniform := fun s => (1/2, s)
    nextRandom := fun s => (9/10, s) }

/-- Witness for C3: the same application evaluated from two different
prior generator states yields the same decision. -/
theorem localRulesSeeded_deterministic_witness :
    (localRulesSeeded witnessRandom true
      ⟨"app-2", "911", "N", 30, "Salaried", 40000, 100000, "Travel", true⟩).1 =
    (localRulesSeeded witnessRandom false
      ⟨"app-2", "911", "N", 30, "Salaried", 40000, 100000, "Travel", true⟩).1 :=
  localRulesSeeded_deterministic witnessRandom true false
    ⟨"app-2", "911", "N", 30, "Salaried", 40000, 100000, "Travel", true⟩
    ⟨"app-2", "911", "N", 30, "Salaried", 40000, 100000, "Travel", true⟩
    rfl rfl rfl rfl rfl rfl rfl rfl rfl

/-! ## C10: offer amount on declined decisions -/

theorem roundHalfEven_ge_floor (q : ℚ) : ⌊q⌋ ≤ roundHalfEven q := by
  unfold roundHalfEven
  split_ifs <;> omega

theorem pyRound2_pos {q : ℚ} (h : 1/100 ≤ q) : 0 < pyRound2 q := by
  have h1 : (1 : ℚ) ≤ q * 100 := by linarith
  have h2 : (1 : ℤ) ≤ ⌊q * 100⌋ := Int.le_floor.mpr (by exact_mod_cast h1)
  have h3 : (1 : ℤ) ≤ roundHalfEven (q * 100) :=
    le_trans h2 (roundHalfEven_ge_floor _)
  unfold pyRound2
  have : (0 : ℚ) < (roundHalfEven (q * 100) : ℚ) := by exact_mod_cast h3
  positivity

theorem pyRound2_nonneg {q : ℚ} (h : 0 ≤ q) : 0 ≤ pyRound2 q := by
  have h2 : (0 : ℤ) ≤ ⌊q * 100⌋ := Int.le_floor.mpr (by positivity)
  have h3 : (0 : ℤ) ≤ roundHalfEven (q * 100) :=
    le_trans h2 (roundHalfEven_ge_floor _)
  unfold pyRound2
  have : (0 : ℚ) ≤ (roundHalfEven (q * 100) : ℚ) := by exact_mod_cast h3
  positivity

/-- C10 counterexample: the valid application with requested amount
0.001 and no consent is declined, yet its offer amount is exactly 0, so
a declined decision CAN carry a zero offer amount. -/
theorem localRules_zero_offer_counterexample :
    (⟨"ref-tiny", "911", "T", 30, "Salaried", 20000, 1/1000, "Misc", false⟩ :
        LoanApplication).Valid ∧
    (localRules ⟨700, 1/2, 9/10⟩
      ⟨"ref-tiny", "911", "T", 30, "Salaried", 20000, 1/1000, "Misc", false⟩).approved
        = false ∧
    (localRules ⟨700, 1/2, 9/10⟩
      ⟨"ref-tiny", "911", "T", 30, "Salaried", 20000, 1/1000, "Misc", false⟩).offer_amount
        = 0 := by
  refine ⟨⟨by norm_num, by norm_num, by norm_num, by norm_num⟩,
    by simp [localRules, approvedFlag], ?_⟩
  show offerAmountOf _ = 0
  have hmin : min ((1:ℚ)/1000) ((20000:ℚ) * 6) = 1/1000 :=
    min_eq_left (by norm_num)
  have hfl : ⌊((1:ℚ)/1000) * 100⌋ = 0 := by
    norm_num [Int.floor_eq_iff]
  unfold offerAmountOf pyRound2 roundHalfEven
  simp only [hmin, hfl]
  norm_num

/-- C10 (amended): every declined decision on a valid application
carries offer_amount = round(min(requestedAmount, monthlyIncome × 6), 2)
(a nonnegative value) and max_term_months = 0, and the offer is strictly
positive whenever min(requestedAmount, monthlyIncome × 6) is at least
0.01; sub-paisa requested amounts round to a zero offer. -/
theorem localRules_declined_offer (d : RandDraws) (a : LoanApplication)
    (hv : a.Valid) (hd : (localRules d a).approved = false) :
    (localRules d a).offer_amount
        = pyRound2 (min a.requested_amount (a.monthly_income * 6)) ∧
    0 ≤ (localRules d a).offer_amount ∧
    (localRules d a).max_term_months = 0 ∧
    (1/100 ≤ min a.requested_amount (a.monthly_income * 6) →
      0 < (localRules d a).offer_amount) := by
  have happ : approvedFlag d a = false := by simpa [localRules] using hd
  refine ⟨rfl, ?_, ?_, ?_⟩
  · have hmin : 0 ≤ min a.requested_amount (a.monthly_income * 6) := by
      have := hv.2.2.1
      have := hv.2.2.2
      apply le_min <;> nlinarith
    exact pyRound2_nonneg hmin
  · simp [localRules, happ]
  · intro hge
    exact pyRound2_pos hge

/-- Witness for C10 (amended): a declined valid application with request
50000 and income 20000 gets a positive offer of round2(min(50000,
120000)). -/
theorem localRules_declined_offer_witness :
    (localRules ⟨700, 1/2, 9/10⟩
      ⟨"app-3", "911", "N", 30, "Salaried", 20000, 50000, "Travel", false⟩).offer_amount
        = pyRound2 (min
            (⟨"app-3", "911", "N", 30, "Salaried", 20000, 50000, "Travel", false⟩ :
              LoanApplication).requested_amount
            ((⟨"app-3", "911", "N", 30, "Salaried", 20000, 50000, "Travel", false⟩ :
              LoanApplication).monthly_income * 6)) ∧
    0 ≤ (localRules ⟨700, 1/2, 9/10⟩
      ⟨"app-3", "911", "N", 30, "Salaried", 20000, 50000, "Travel", false⟩).offer_amount ∧
    (localRules ⟨700, 1/2, 9/10⟩
      ⟨"app-3", "911", "N", 30, "Salaried", 20000, 50000, "Travel", false⟩).max_term_months
        = 0 ∧
    (1/100 ≤ min
        (⟨"app-3", "911", "N", 30, "Salaried", 20000, 50000, "Travel", false⟩ :
          LoanApplication).requested_amount
        ((⟨"app-3", "911", "N", 30, "Salaried", 20000, 50000, "Travel", false⟩ :
          LoanApplication).monthly_income * 6) →
      0 < (localRules ⟨700, 1/2, 9/10⟩
        ⟨"app-3", "911", "N", 30, "Salaried", 20000, 50000, "Travel", false⟩).offer_amount) :=
  localRules_declined_offer ⟨700, 1/2, 9/10⟩
    ⟨"app-3", "911", "N", 30, "Salaried", 20000, 50000, "Travel", false⟩
    ⟨by norm_num, by norm_num, by norm_num, by norm_num⟩
    (by simp [localRules, approvedFlag])

/-! ## Field validation (`normalize_boolean`, `validate_onboarding_answer`)

Embeds `finhackers.py` lines 371-376 and 1091-1109 (identical in
`main_app.py`).  The `BOOLEAN_SYNONYMS` sets are kept as lists (only
membership is used; the two sets are disjoint, so the dict-iteration
order of the source is irrelevant and mirrored by checking the
affirmative set first, as Python's insertion order does). -/

def affirmativeSynonyms : List String :=
  ["yes", "y", "haan", "haanji", "consent", "agree", "ok", "sure", "accept"]

def negativeSynonyms : List String :=
  ["no", "n", "nah", "na", "stop", "reject"]

/-- `normalize_boolean`: strip and lowercase, then look the token up in
the affirmative and negative synonym sets. -/
def normalize_boolean (value : String) : Option Bool :=
  if pyLower (pyStrip value) ∈ affirmativeSynonyms then some true
  else if pyLower (pyStrip value) ∈ negativeSynonyms then some false
  else none

/-- A validated onboarding answer (the `Any` returned by
`validate_onboarding_answer`: `int` for age, rounded `float` for
amounts, `bool` for consent, stripped `str` otherwise). -/
inductive AnswerValue where
  | intVal (n : ℤ)
  | ratVal (q : ℚ)
  | boolVal (b : Bool)
  | strVal (s : String)
deriving DecidableEq

/- The numeric parsers `int(...)` and `float(...)` applied by
`parse_numeric` are CPython string-to-number conversions; the embedding
is parameterised over them (they are pure functions of their input,
which is all the claims need). -/
section Validation

variable (parseIntFn : String → Option ℤ) (parseFloatFn : String → Option ℚ)

/-- `parse_numeric(value, int)`: drop commas, strip, convert. -/
def parse_numeric_int (s : String) : Option ℤ :=
  parseIntFn (pyStrip (removeCommas s))

/-- `parse_numeric(value, float)`: drop commas, strip, convert. -/
def parse_numeric_float (s : String) : Option ℚ :=
  parseFloatFn (pyStrip (removeCommas s))

/-- `validate_onboarding_answer(field, raw_value)`; raising `ValueError`
is modelled as `Except.error` carrying the message. -/
def validate_onboarding_answer (fieldName raw : String) :
    Except String AnswerValue :=
  if fieldName = "age" then
    match parse_numeric_int parseIntFn raw with
    | none => .error "Please provide a numeric value."
    | some n =>
        if n < 18 ∨ 75 < n then .error "Age must be between 18 and 75."
        else .ok (.intVal n)
  else if fieldName = "monthly_income" ∨ fieldName = "requested_amount" then
    match parse_numeric_float parseFloatFn raw with
    | none => .error "Please provide a numeric value."
    | some q =>
        if q ≤ 0 then .error "Amount must be greater than zero."
        else .ok (.ratVal (pyRound2 q))
  else if fieldName = "consent_to_credit_check" then
    match normalize_boolean raw with
    | none => .error "Please reply YES or NO."
    | some false => .error "Consent is required to continue."
    | some true => .ok (.boolVal true)
  else .ok (.strVal (pyStrip raw))

/-- C4: consent validation distinguishes its two failures: a token in
neither synonym set fails with the unrecognized-input error asking for
YES or NO; a negative synonym fails with the consent-required error; and
validation succeeds (returning `true`) exactly on affirmative synonyms.
A parsed `false` is never stored. -/
theorem validate_consent_cases (v : String) :
    (normalize_boolean v = none →
      validate_onboarding_answer parseIntFn parseFloatFn
        "consent_to_credit_check" v = .error "Please reply YES or NO.") ∧
    (normalize_boolean v = some false →
      validate_onboarding_answer parseIntFn parseFloatFn
        "consent_to_credit_check" v = .error "Consent is required to continue.") ∧
    (validate_onboarding_answer parseIntFn parseFloatFn
        "consent_to_credit_check" v = .ok (.boolVal true) ↔
      normalize_boolean v = some true) ∧
    (normalize_boolean v = none ↔
      pyLower (pyStrip v) ∉ affirmativeSynonyms ∧
      pyLower (pyStrip v) ∉ negativeSynonyms) ∧
    (normalize_boolean v = some false ↔
      pyLower (pyStrip v) ∉ affirmativeSynonyms ∧
      pyLower (pyStrip v) ∈ negativeSynonyms) ∧
    (normalize_boolean v = some true ↔
      pyLower (pyStrip v) ∈ affirmativeSynonyms) := by
  refine ⟨?_, ?_, ?_, ?_, ?_, ?_⟩
  · intro h
    simp [validate_onboarding_answer, h]
  · intro h
    simp [validate_onboarding_answer, h]
  · cases hnb : normalize_boolean v with
    | none => simp [validate_onboarding_answer, hnb]
    | some b => cases b <;> simp [validate_onboarding_answer, hnb]
  · unfold normalize_boolean
    split_ifs with h1 h2 <;> simp_all
  · unfold normalize_boolean
    split_ifs with h1 h2 <;> simp_all
  · unfold normalize_boolean
    split_ifs with h1 h2 <;> simp_all

end Validation

/-- Witness for C4: the negative synonym "NAH " (strips and lowers to
"nah") fails consent validation with the consent-required error. -/
theorem validate_consent_cases_witness :
    normalize_boolean "NAH " = some false ∧
    validate_onboarding_answer (fun _ => none) (fun _ => none)
      "consent_to_credit_check" "NAH " = .error "Consent is required to continue." := by
  have h := validate_consent_cases (fun _ => (none : Option ℤ))
    (fun _ => (none : Option ℚ)) "NAH "
  have hb : normalize_boolean "NAH " = some false := by decide
  exact ⟨hb, h.2.1 hb⟩

/-! ## C9: the remote decision path never fabricates a decision

Embeds `CreditDecisionClient.evaluate` (`finhackers.py` 785-812,
`main_app.py` 482-509).  The HTTP exchange is modelled by a
`RemoteDecisionResponse` record: `isError` is `response.is_error`
(`raise_for_status` raising is `Except.error`), and `parsedBody` is
`some d` exactly when `response.json()` succeeds and pydantic accepts it
as a `DecisionResult` (otherwise the `ValidationError` handler raises an
HTTP 500). -/

structure RemoteDecisionResponse where
  isError : Bool
  statusCode : ℕ
  parsedBody : Option DecisionResult

inductive DecisionServiceError where
  | httpStatusError (code : ℕ)
  | invalidDecisionPayload
deriving DecidableEq

/-- `CreditDecisionClient.evaluate`: offline (no base url) uses
`_local_rules`; otherwise the remote response decides the outcome. -/
def evaluateDecision (baseUrl : Option String)
    (remote : RemoteDecisionResponse) (d : RandDraws) (a : LoanApplication) :
    Except DecisionServiceError DecisionResult :=
  match baseUrl with
  | none => .ok (localRules d a)
  | some _ =>
      if remote.isError then .error (.httpStatusError remote.statusCode)
      else
        match remote.parsedBody with
        | some dec => .ok dec
        | none => .error .invalidDecisionPayload

/-- C9: with a configured backend, an HTTP-error response or a response
that does not parse as a well-formed Decision makes `evaluate` surface a
service error; it never returns any Decision in that case. -/
theorem evaluateDecision_error_surfaced (u : String)
    (remote : RemoteDecisionResponse) (d : RandDraws) (a : LoanApplication)
    (h : remote.isError = true ∨ remote.parsedBody = none) :
    (∃ e, evaluateDecision (some u) remote d a = .error e) ∧
    ∀ dec, evaluateDecision (some u) remote d a ≠ .ok dec := by
  rcases h with h | h
  · refine ⟨⟨.httpStatusError remote.statusCode, ?_⟩, ?_⟩
    · simp [evaluateDecision, h]
    · intro dec
      simp [evaluateDecision, h]
  · cases hE : remote.isError with
    | true =>
        refine ⟨⟨.httpStatusError remote.statusCode, ?_⟩, ?_⟩
        · simp [evaluateDecision, hE]
        · intro dec
          simp [evaluateDecision, hE]
    | false =>
        refine ⟨⟨.invalidDecisionPayload, ?_⟩, ?_⟩
        · simp [evaluateDecision, hE, h]
        · intro dec
          simp [evaluateDecision, hE, h]

/-- Witness for C9: a 502 HTTP error from the backend surfaces as a
service error and is not returned as a decision. -/
theorem evaluateDecision_error_surfaced_witness :
    (∃ e, evaluateDecision (some "https://decisions.example")
        ⟨true, 502, none⟩ ⟨700, 1/2, 9/10⟩
        ⟨"app-9", "911", "N", 30, "Salaried", 20000, 50000, "Travel", true⟩ = .error e) ∧
    ∀ dec, evaluateDecision (some "https://decisions.example")
        ⟨true, 502, none⟩ ⟨700, 1/2, 9/10⟩
        ⟨"app-9", "911", "N", 30, "Salaried", 20000, 50000, "Travel", true⟩ ≠ .ok dec :=
  evaluateDecision_error_surfaced "https://decisions.example"
    ⟨true, 502, none⟩ ⟨700, 1/2, 9/10⟩
    ⟨"app-9", "911", "N", 30, "Salaried", 20000, 50000, "Travel", true⟩
    (Or.inl rfl)

/-! ## Support matcher (`similarity_score`, `SupportAssistant.answer`)

Embeds `finhackers.py` lines 884-894 and 1019-1025 (identical in
`main_app.py`).  A knowledge-base entry holds the localized question and
answer strings; `entry["q"].get(language) or entry["q"]["en"]` on the
two-key dicts (whose values are non-empty, hence truthy) is the
`qFor`/`aFor` lookup below. -/

structure KBEntry where
  qEn : String
  qHi : String
  aEn : String
  aHi : String
deriving DecidableEq

def qFor (language : String) (e : KBEntry) : String :=
  if language = "en" then e.qEn else if language = "hi" then e.qHi else e.qEn

def aFor (language : String) (e : KBEntry) : String :=
  if language = "en" then e.aEn else if language = "hi" then e.aHi else e.aEn

/-- `similarity_score`: token-set Jaccard similarity
(`len(A & B) / len(A | B)`, 0 when either side has no tokens). -/
def similarity_score (a b : String) : ℚ :=
  if tokenSet a = ∅ ∨ tokenSet b = ∅ then 0
  else ((tokenSet a ∩ tokenSet b).card : ℚ) / ((tokenSet a ∪ tokenSet b).card : ℚ)

/-- The score `SupportAssistant.answer` computes for one entry:
`similarity_score(normalized, prompt.lower())`. -/
def entryScore (language normalizedQ : String) (e : KBEntry) : ℚ :=
  similarity_score normalizedQ (pyLower (qFor language e))

/-- The `for entry in self.knowledge_base` loop of
`SupportAssistant.answer`, with the `(best_answer, best_score)`
accumulator made explicit; the update fires on a strictly greater
score. -/
def answerLoop (language normalizedQ : String) :
    List KBEntry → Option String × ℚ → Option String × ℚ
  | [], acc => acc
  | e :: rest, acc =>
      answerLoop language normalizedQ rest
        (if acc.2 < entryScore language normalizedQ e
          then (some (aFor language e), entryScore language normalizedQ e)
          else acc)

/-- `SupportAssistant.answer(question, language)`: normalize the
question, then run the loop from `(None, 0.0)`. -/
def supportAnswer (kb : List KBEntry) (question language : String) :
    Option String × ℚ :=
  answerLoop language (pyLower (pyStrip question)) kb (none, 0)

def kbEntryPayEmi : KBEntry :=
  ⟨"How can I pay my EMI?",
   "मैं EMI कैसे भरूँ?",
   "You can pay your EMI via the PayU Finance app, net banking, or UPI. Reply PAY LINK if you need a payment link.",
   "आप PayU Finance ऐप, नेट बैंकिंग या UPI से EMI भर सकते हैं। यदि आपको पेमेंट लिंक चाहिए तो PAY LINK लिखें।"⟩

def kbEntryLoanStatus : KBEntry :=
  ⟨"How do I check my loan status?",
   "मैं अपना लोन स्टेटस कैसे देखूँ?",
   "You can track your loan status inside the PayU Finance app under \x27My Loans\x27. I can also connect you to an agent for detailed help.",
   "आप PayU Finance ऐप में \x27My Loans\x27 सेक्शन में अपना स्टेटस देख सकते हैं। मैं आपको एजेंट से भी जोड़ सकता हूँ।"⟩

def kbEntryStatement : KBEntry :=
  ⟨"How do I download my loan statement?",
   "मैं अपना लोन स्टेटमेंट कैसे डाउनलोड करूँ?",
   "You can download loan statements and documents inside the PayU Finance app under My Loans > Documents. I can also email them to you if needed.",
   "आप PayU Finance ऐप में My Loans > Documents सेक्शन से स्टेटमेंट और डॉक्युमेंट्स डाउनलोड कर सकते हैं। आवश्यकता हो तो मैं इन्हें ईमेल भी कर सकता हूँ।"⟩

def kbEntryRepaymentDate : KBEntry :=
  ⟨"Can I change my repayment date?",
   "क्या मैं अपनी EMI तारीख बदल सकता हूँ?",
   "Repayment dates can be changed once every 6 months via the app. Go to My Loans > Repayment Options or request a PayU specialist to assist.",
   "आप EMI तारीख को हर 6 महीने में एक बार बदल सकते हैं। PayU Finance ऐप में My Loans > Repayment Options पर जाएँ या विशेषज्ञ से मदद लें।"⟩

/-- The static `SUPPORT_KB` list. -/
def SUPPORT_KB : List KBEntry :=
  [kbEntryPayEmi, kbEntryLoanStatus, kbEntryStatement, kbEntryRepaymentDate]

/-- The maximal entry score over a knowledge base (0 for an empty
list), i.e. the value the loop's `best_score` tracks. -/
def scoreMax (language normalizedQ : String) (kb : List KBEntry) : ℚ :=
  kb.foldr (fun e m => max (entryScore language normalizedQ e) m) 0

theorem similarity_score_nonneg (a b : String) : 0 ≤ similarity_score a b := by
  unfold similarity_score
  split_ifs
  · exact le_refl 0
  · positivity

theorem similarity_score_le_one (a b : String) : similarity_score a b ≤ 1 := by
  unfold similarity_score
  split_ifs with h
  · norm_num
  · push_neg at h
    have hcard : (tokenSet a ∩ tokenSet b).card ≤ (tokenSet a ∪ tokenSet b).card :=
      Finset.card_le_card ((Finset.inter_subset_left).trans Finset.subset_union_left)
    have hpos : 0 < (tokenSet a ∪ tokenSet b).card := by
      have h1 := Finset.card_pos.mpr (Finset.nonempty_iff_ne_empty.mpr h.1)
      have hle : (tokenSet a).card ≤ (tokenSet a ∪ tokenSet b).card :=
        Finset.card_le_card Finset.subset_union_left
      omega
    rw [div_le_one (by exact_mod_cast hpos)]
    exact_mod_cast hcard

theorem similarity_score_self {a : String} (h : tokenSet a ≠ ∅) :
    similarity_score a a = 1 := by
  unfold similarity_score
  rw [if_neg (by simp [h])]
  rw [Finset.inter_self, Finset.union_self]
  have hpos : 0 < (tokenSet a).card :=
    Finset.card_pos.mpr (Finset.nonempty_iff_ne_empty.mpr h)
  exact div_self (Nat.cast_ne_zero.mpr hpos.ne')

theorem scoreMax_nonneg (l n : String) (kb : List KBEntry) :
    0 ≤ scoreMax l n kb := by
  induction kb with
  | nil => exact le_refl 0
  | cons e rest ih => exact le_trans ih (le_max_right _ _)

theorem le_scoreMax (l n : String) {kb : List KBEntry} {e : KBEntry}
    (he : e ∈ kb) : entryScore l n e ≤ scoreMax l n kb := by
  induction kb with
  | nil => cases he
  | cons x rest ih =>
      rcases List.mem_cons.mp he with h | h
      · subst h; exact le_max_left _ _
      · exact le_trans (ih h) (le_max_right _ _)

theorem scoreMax_le_one (l n : String) (kb : List KBEntry) :
    scoreMax l n kb ≤ 1 := by
  induction kb with
  | nil => norm_num [scoreMax]
  | cons e rest ih =>
      exact max_le (similarity_score_le_one _ _) ih

/-- The loop never updates when the accumulator already dominates every
entry score. -/
theorem answerLoop_no_update (l n : String) (kb : List KBEntry) :
    ∀ acc : Option String × ℚ, scoreMax l n kb ≤ acc.2 →
      answerLoop l n kb acc = acc := by
  induction kb with
  | nil => intro acc _; rfl
  | cons e rest ih =>
      intro acc h
      have hmax : max (entryScore l n e) (scoreMax l n rest) ≤ acc.2 := h
      have he : entryScore l n e ≤ acc.2 := le_trans (le_max_left _ _) hmax
      show answerLoop l n rest _ = acc
      rw [if_neg (not_lt.mpr he)]
      exact ih acc (le_trans (le_max_right _ _) hmax)

/-- When some entry beats the accumulator, the loop lands on the FIRST
entry attaining the maximal score and returns its localized answer with
that score. -/
theorem answerLoop_update (l n : String) (kb : List KBEntry) :
    ∀ acc : Option String × ℚ, 0 ≤ acc.2 → acc.2 < scoreMax l n kb →
      ∃ e, kb.find? (fun x => decide (scoreMax l n kb ≤ entryScore l n x)) = some e ∧
        answerLoop l n kb acc = (some (aFor l e), entryScore l n e) ∧
        entryScore l n e = scoreMax l n kb := by
  induction kb with
  | nil =>
      intro acc h0 hlt
      exact absurd hlt (not_lt.mpr h0)
  | cons e rest ih =>
      intro acc h0 hlt
      by_cases hs : scoreMax l n (e :: rest) ≤ entryScore l n e
      · -- the head already attains the maximum
        have heq : entryScore l n e = scoreMax l n (e :: rest) :=
          le_antisymm (le_scoreMax l n (List.mem_cons_self e rest)) hs
        refine ⟨e, ?_, ?_, heq⟩
        · rw [List.find?_cons_of_pos _ (by simpa using hs)]
        · have hacc : acc.2 < entryScore l n e := by rw [heq]; exact hlt
          show answerLoop l n rest _ = _
          rw [if_pos hacc]
          exact answerLoop_no_update l n rest _
            (by simpa [heq] using le_trans (le_max_right _ _) hs)
      · -- the maximum lives strictly inside the tail
        push_neg at hs
        have hcons : scoreMax l n (e :: rest)
            = max (entryScore l n e) (scoreMax l n rest) := rfl
        have hlt2 : entryScore l n e < scoreMax l n rest := by
          rcases le_or_lt (entryScore l n e) (scoreMax l n rest) with hle | hgt
          · rcases lt_or_eq_of_le hle with hcase | hcase
            · exact hcase
            · exfalso
              rw [hcons, ← hcase, max_self] at hs
              exact lt_irrefl _ hs
          · exfalso
            rw [hcons, max_eq_left (le_of_lt hgt)] at hs
            exact lt_irrefl _ hs
        have hM : scoreMax l n (e :: rest) = scoreMax l n rest := by
          rw [hcons]
          exact max_eq_right (le_of_lt hlt2)
        have hstep2 : (if acc.2 < entryScore l n e
            then (some (aFor l e), entryScore l n e) else acc).2 < scoreMax l n rest := by
          split_ifs with hup
          · exact hlt2
          · rw [← hM]; exact hlt
        have hstep0 : 0 ≤ (if acc.2 < entryScore l n e
            then (some (aFor l e), entryScore l n e) else acc).2 := by
          split_ifs with hup
          · exact le_of_lt (lt_of_le_of_lt h0 hup)
          · exact h0
        obtain ⟨w, hw1, hw2, hw3⟩ := ih _ hstep0 hstep2
        refine ⟨w, ?_, ?_, by rw [hM]; exact hw3⟩
        · have hhead : ¬ (scoreMax l n (e :: rest) ≤ entryScore l n e) :=
            not_le.mpr hs
          rw [hM] at hhead
          rw [hM]
          rw [List.find?_cons_of_neg _ (by simpa using hhead)]
          exact hw1
        · exact hw2

/-- C5: `SupportAssistant.answer` returns (a) as confidence the maximal
token-set Jaccard score over the knowledge base, an upper bound on every
entry score; (b) a null answer with confidence 0 when no entry scores
above 0 (in particular when the question shares tokens with no prompt);
(c) otherwise the localized answer of the FIRST entry attaining the
maximal score (first-seen wins ties); and (d) confidence exactly 1 when
the question is identical to some entry's localized prompt (with
whitespace-clean prompt and at least one token). -/
theorem supportAnswer_spec (kb : List KBEntry) (q language : String) :
    ((supportAnswer kb q language).2 = scoreMax language (pyLower (pyStrip q)) kb) ∧
    (∀ e ∈ kb, entryScore language (pyLower (pyStrip q)) e ≤
      (supportAnswer kb q language).2) ∧
    (scoreMax language (pyLower (pyStrip q)) kb = 0 →
      supportAnswer kb q language = (none, 0)) ∧
    ((∀ e ∈ kb, entryScore language (pyLower (pyStrip q)) e = 0) →
      supportAnswer kb q language = (none, 0)) ∧
    (0 < scoreMax language (pyLower (pyStrip q)) kb →
      ∃ e, kb.find? (fun x => decide (scoreMax language (pyLower (pyStrip q)) kb ≤
            entryScore language (pyLower (pyStrip q)) x)) = some e ∧
        (supportAnswer kb q language).1 = some (aFor language e) ∧
        entryScore language (pyLower (pyStrip q)) e =
          scoreMax language (pyLower (pyStrip q)) kb) ∧
    (∀ e ∈ kb, qFor language e = q → pyStrip q = q → pySplit (pyLower q) ≠ [] →
      (supportAnswer kb q language).2 = 1) := by
  set n := pyLower (pyStrip q) with hn
  have hMnn := scoreMax_nonneg language n kb
  have hchar : (supportAnswer kb q language).2 = scoreMax language n kb := by
    rcases eq_or_lt_of_le hMnn with hM0 | hMpos
    · rw [supportAnswer, answerLoop_no_update language n kb (none, 0) (le_of_eq hM0.symm)]
      exact hM0
    · obtain ⟨e, _, hrun, hsc⟩ := answerLoop_update language n kb (none, 0) (le_refl 0) hMpos
      rw [supportAnswer, hrun]
      exact hsc
  have hzero : scoreMax language n kb = 0 → supportAnswer kb q language = (none, 0) := by
    intro hM0
    rw [supportAnswer, answerLoop_no_update language n kb (none, 0) (le_of_eq hM0)]
  refine ⟨hchar, ?_, hzero, ?_, ?_, ?_⟩
  · intro e he
    rw [hchar]
    exact le_scoreMax language n he
  · intro hall
    apply hzero
    apply le_antisymm ?_ hMnn
    · -- all entry scores vanish, so the fold over max is at most 0
      clear hchar hzero
      induction kb with
      | nil => exact le_refl 0
      | cons x rest ih =>
          refine max_le (le_of_eq (hall x (List.mem_cons_self x rest))) ?_
          exact ih (scoreMax_nonneg _ _ _) (fun e he => hall e (List.mem_cons_of_mem x he))
  · intro hMpos
    obtain ⟨e, hfind, hrun, hsc⟩ := answerLoop_update language n kb (none, 0) (le_refl 0) hMpos
    exact ⟨e, hfind, by rw [supportAnswer, hrun], hsc⟩
  · intro e he hq hstrip hne
    have hts : tokenSet (pyLower q) ≠ ∅ := by
      simp only [tokenSet, ne_eq, List.toFinset_eq_empty_iff]
      exact hne
    have hscore : entryScore language n e = 1 := by
      unfold entryScore
      rw [hq, hn, hstrip]
      exact similarity_score_self hts
    have h1 : (1 : ℚ) ≤ scoreMax language n kb := by
      rw [← hscore]; exact le_scoreMax language n he
    rw [hchar]
    exact le_antisymm (scoreMax_le_one _ _ _) h1

/-- Witness for C5: the question "How can I pay my EMI?" is identical to
the first knowledge-base prompt in English, so the matcher returns
confidence 1. -/
theorem supportAnswer_spec_witness :
    pyStrip "How can I pay my EMI?" = "How can I pay my EMI?" ∧
    (supportAnswer SUPPORT_KB "How can I pay my EMI?" "en").2 = 1 :=
  ⟨by decide,
    (supportAnswer_spec SUPPORT_KB "How can I pay my EMI?" "en").2.2.2.2.2
      kbEntryPayEmi (by simp [SUPPORT_KB]) rfl (by decide) (by decide)⟩

/-! ## Form-submission merging (`handle_form_submission`)

Embeds `finhackers.py` lines 1112-1141 / `main_app.py` lines 828-856.
The `state.answers` dict is modelled extensionally as a function
`String → Option AnswerValue`; the merge loop validates each submitted
field and stores it on success, skipping unknown fields and failed
validations; if all required fields are then present,
`finalize_onboarding` runs.  Finalization first constructs
`LoanApplication(**answers)`: only `KeyError` is caught there
(`finhackers.py` line 1160, `main_app.py` line 876), so a pydantic
`ValidationError` — raised e.g. for a stored value of the wrong type, or
a validated amount that `round(x, 2)` turned into 0.0 against `gt=0` —
propagates and skips everything after it, leaving the merged `answers`
in place; only on a successful construction does finalization reach
`state.reset(keep_language=True)`, which clears `answers`.  The
constructor's verdict enters the model as the oracle `buildOk` below
(the remote decision service and the messenger are external
collaborators per spec §1; the model takes the offline/dry-run path, on
which neither raises, so after a successful construction the reset is
always reached). -/

/-- A sufficient, checkable condition for `LoanApplication(**answers)`
to construct: each stored value already has the field's Python type and
satisfies its pydantic bound (age an int in [18, 75], amounts floats
strictly greater than 0, name/employment/purpose strings, consent a
bool).  On maps whose seven values were produced by
`validate_onboarding_answer` this is exactly pydantic's verdict: the
validator stores an int in [18, 75] for age, `round(x, 2)` floats for
the amounts (re-checked by pydantic against `gt=0`, which the rounded
value can fail), stripped strings, and a bool for consent. -/
def wellTypedApplicationAnswers (answers : String → Option AnswerValue) : Bool :=
  (match answers "full_name" with
    | some (.strVal _) => true | _ => false) &&
  (match answers "age" with
    | some (.intVal n) => decide (18 ≤ n ∧ n ≤ 75) | _ => false) &&
  (match answers "employment_status" with
    | some (.strVal _) => true | _ => false) &&
  (match answers "monthly_income" with
    | some (.ratVal q) => decide (0 < q) | _ => false) &&
  (match answers "requested_amount" with
    | some (.ratVal q) => decide (0 < q) | _ => false) &&
  (match answers "purpose" with
    | some (.strVal _) => true | _ => false) &&
  (match answers "consent_to_credit_check" with
    | some (.boolVal _) => true | _ => false)

def flowFieldNames : List String :=
  ["full_name", "age", "employment_status", "monthly_income",
   "requested_amount", "purpose", "consent_to_credit_check"]

section FormMerge

variable (parseIntFn : String → Option ℤ) (parseFloatFn : String → Option ℚ)
variable (buildOk : (String → Option AnswerValue) → Bool)

/-- One iteration of the merge loop in `handle_form_submission`. -/
def mergeStep (answers : String → Option AnswerValue) (kv : String × String) :
    String → Option AnswerValue :=
  if kv.1 ∈ flowFieldNames then
    match validate_onboarding_answer parseIntFn parseFloatFn kv.1 kv.2 with
    | .ok v => fun f => if f = kv.1 then some v else answers f
    | .error _ => answers
  else answers

/-- The whole merge loop over the submitted field map. -/
def mergeFormAnswers (answers : String → Option AnswerValue)
    (form : List (String × String)) : String → Option AnswerValue :=
  form.foldl (mergeStep parseIntFn parseFloatFn) answers

/-- `all(field in state.answers for field in required_fields)`. -/
def answersComplete (answers : String → Option AnswerValue) : Bool :=
  flowFieldNames.all (fun f => (answers f).isSome)

/-- The effect of `handle_form_submission` on `state.answers`: merge,
then — when all required fields are present — finalize.  `buildOk` is
the verdict of the `LoanApplication(**answers)` construction: when it
accepts, finalization ends in `state.reset(keep_language=True)`,
clearing the answers; when it raises `ValidationError` (not caught —
only `KeyError` is), the merged answers are left in place. -/
def formSubmissionAnswers (answers : String → Option AnswerValue)
    (form : List (String × String)) : String → Option AnswerValue :=
  let merged := mergeFormAnswers parseIntFn parseFloatFn answers form
  if answersComplete merged && buildOk merged then (fun _ => none) else merged

/-- The last value the merge loop writes at key `x` (if any): used to
characterize the merge pointwise. -/
def lastWriteValue (x : String) : List (String × String) → Option AnswerValue
  | [] => none
  | kv :: rest =>
      match lastWriteValue x rest with
      | some w => some w
      | none =>
          if kv.1 ∈ flowFieldNames ∧ x = kv.1 then
            match validate_onboarding_answer parseIntFn parseFloatFn kv.1 kv.2 with
            | .ok v => some v
            | .error _ => none
          else none

theorem mergeFormAnswers_apply (form : List (String × String)) :
    ∀ (answers : String → Option AnswerValue) (x : String),
      mergeFormAnswers parseIntFn parseFloatFn answers form x =
        match lastWriteValue parseIntFn parseFloatFn x form with
        | some w => some w
        | none => answers x := by
  induction form with
  | nil => intro answers x; rfl
  | cons kv rest ih =>
      intro answers x
      have hstep : mergeFormAnswers parseIntFn parseFloatFn answers (kv :: rest)
          = mergeFormAnswers parseIntFn parseFloatFn
              (mergeStep parseIntFn parseFloatFn answers kv) rest := rfl
      rw [hstep, ih]
      cases hlw : lastWriteValue parseIntFn parseFloatFn x rest with
      | some w => simp [lastWriteValue, hlw]
      | none =>
          simp only [lastWriteValue, hlw]
          unfold mergeStep
          by_cases hmem : kv.1 ∈ flowFieldNames
          · cases hval : validate_onboarding_answer parseIntFn parseFloatFn kv.1 kv.2 with
            | ok v =>
                by_cases hx : x = kv.1
                · simp [hmem, hval, hx]
                · simp [hmem, hval, hx]
            | error m => simp [hmem, hval]
          · simp [hmem]

/-- C8 (amended): re-storing the same validated values is a no-op on the
`answers` mapping — re-applying the merge leaves the map unchanged — and
the full submission step is idempotent whenever the first application
does not successfully finalize (the merged map stays incomplete, or the
`LoanApplication` constructor rejects it — in which case the uncaught
`ValidationError` leaves the merged answers both times), or the
submission alone supplies every required field acceptably; when a
partial submission successfully finalizes (answers are cleared),
re-applying it rebuilds just the submitted fields instead. -/
theorem handle_form_submission_idempotent
    (answers : String → Option AnswerValue) (form : List (String × String)) :
    mergeFormAnswers parseIntFn parseFloatFn
        (mergeFormAnswers parseIntFn parseFloatFn answers form) form
      = mergeFormAnswers parseIntFn parseFloatFn answers form ∧
    (((answersComplete (mergeFormAnswers parseIntFn parseFloatFn answers form)
          && buildOk (mergeFormAnswers parseIntFn parseFloatFn answers form)) = false ∨
      (answersComplete (mergeFormAnswers parseIntFn parseFloatFn (fun _ => none) form)
          && buildOk (mergeFormAnswers parseIntFn parseFloatFn (fun _ => none) form)) = true) →
      formSubmissionAnswers parseIntFn parseFloatFn buildOk
          (formSubmissionAnswers parseIntFn parseFloatFn buildOk answers form) form
        = formSubmissionAnswers parseIntFn parseFloatFn buildOk answers form) := by
  have hidem : mergeFormAnswers parseIntFn parseFloatFn
      (mergeFormAnswers parseIntFn parseFloatFn answers form) form
      = mergeFormAnswers parseIntFn parseFloatFn answers form := by
    funext x
    rw [mergeFormAnswers_apply, mergeFormAnswers_apply]
    cases hlw : lastWriteValue parseIntFn parseFloatFn x form with
    | some w => rfl
    | none => rfl
  refine ⟨hidem, ?_⟩
  intro h
  simp only [formSubmissionAnswers]
  by_cases hc : (answersComplete (mergeFormAnswers parseIntFn parseFloatFn answers form)
      && buildOk (mergeFormAnswers parseIntFn parseFloatFn answers form)) = true
  · have h2 : (answersComplete (mergeFormAnswers parseIntFn parseFloatFn (fun _ => none) form)
        && buildOk (mergeFormAnswers parseIntFn parseFloatFn (fun _ => none) form)) = true := by
      rcases h with h | h
      · rw [hc] at h; cases h
      · exact h
    rw [if_pos hc, if_pos h2]
  · rw [if_neg hc, hidem, if_neg hc]

end FormMerge

/-- Witness for C8 (amended): submitting just the full name over empty
answers does not finalize, and re-applying the same submission leaves
the answers map unchanged. -/
theorem handle_form_submission_idempotent_witness :
    formSubmissionAnswers (fun _ => none) (fun _ => none) (fun _ => true)
        (formSubmissionAnswers (fun _ => none) (fun _ => none) (fun _ => true)
          (fun _ => none) [("full_name", "Asha")])
        [("full_name", "Asha")]
      = formSubmissionAnswers (fun _ => none) (fun _ => none) (fun _ => true)
          (fun _ => none) [("full_name", "Asha")] :=
  (handle_form_submission_idempotent (fun _ => none) (fun _ => none) (fun _ => true)
      (fun _ => none) [("full_name", "Asha")]).2 (Or.inl (by decide))

/-- The six already-collected answers used by the C8 counterexample:
exactly what `validate_onboarding_answer` stores for a clean applicant —
an int age in range, positive rounded amounts, stripped strings —
everything except consent. -/
def validSixAnswers : String → Option AnswerValue := fun f =>
  if f = "full_name" then some (.strVal "Asha Rao")
  else if f = "age" then some (.intVal 30)
  else if f = "employment_status" then some (.strVal "Salaried")
  else if f = "monthly_income" then some (.ratVal 50000)
  else if f = "requested_amount" then some (.ratVal 200000)
  else if f = "purpose" then some (.strVal "Travel")
  else none

/-- C8 counterexample: a consent-only form submission on a state already
holding the other six answers, all well-typed and in range (first
conjunct: the completed map passes `wellTypedApplicationAnswers`, i.e.
the `LoanApplication` constructor accepts it — int 30 in [18, 75],
floats 50000 and 200000 against `gt=0`, three strings, a bool — so the
construction oracle is instantiated with the constant-true function,
which agrees with pydantic on the one completed map the first
application consults; the second application never reaches construction,
its merged map being incomplete).  The first application finalizes and
clears `answers`; the SECOND application of the same submission leaves a
different mapping (just the consent field) than the first (empty), so
field accumulation is not idempotent when a partial submission completes
the application. -/
theorem handle_form_submission_counterexample :
    wellTypedApplicationAnswers
        (mergeFormAnswers (fun _ => none) (fun _ => none) validSixAnswers
          [("consent_to_credit_check", "YES")]) = true ∧
    formSubmissionAnswers (fun _ => none) (fun _ => none) (fun _ => true)
        validSixAnswers
        [("consent_to_credit_check", "YES")] "consent_to_credit_check" = none ∧
    formSubmissionAnswers (fun _ => none) (fun _ => none) (fun _ => true)
        (formSubmissionAnswers (fun _ => none) (fun _ => none) (fun _ => true)
          validSixAnswers [("consent_to_credit_check", "YES")])
        [("consent_to_credit_check", "YES")] "consent_to_credit_check"
      = some (.boolVal true) ∧
    formSubmissionAnswers (fun _ => none) (fun _ => none) (fun _ => true)
        (formSubmissionAnswers (fun _ => none) (fun _ => none) (fun _ => true)
          validSixAnswers [("consent_to_credit_check", "YES")])
        [("consent_to_credit_check", "YES")] "consent_to_credit_check"
      ≠ formSubmissionAnswers (fun _ => none) (fun _ => none) (fun _ => true)
          validSixAnswers
          [("consent_to_credit_check", "YES")] "consent_to_credit_check" := by
  refine ⟨?_, by decide, by decide, by decide⟩
  have hfn : mergeFormAnswers (fun _ => none) (fun _ => none) validSixAnswers
      [("consent_to_credit_check", "YES")] "full_name"
      = some (.strVal "Asha Rao") := rfl
  have hage : mergeFormAnswers (fun _ => none) (fun _ => none) validSixAnswers
      [("consent_to_credit_check", "YES")] "age" = some (.intVal 30) := rfl
  have hes : mergeFormAnswers (fun _ => none) (fun _ => none) validSixAnswers
      [("consent_to_credit_check", "YES")] "employment_status"
      = some (.strVal "Salaried") := rfl
  have hmi : mergeFormAnswers (fun _ => none) (fun _ => none) validSixAnswers
      [("consent_to_credit_check", "YES")] "monthly_income"
      = some (.ratVal 50000) := rfl
  have hra : mergeFormAnswers (fun _ => none) (fun _ => none) validSixAnswers
      [("consent_to_credit_check", "YES")] "requested_amount"
      = some (.ratVal 200000) := rfl
  have hpu : mergeFormAnswers (fun _ => none) (fun _ => none) validSixAnswers
      [("consent_to_credit_check", "YES")] "purpose"
      = some (.strVal "Travel") := rfl
  have hcc : mergeFormAnswers (fun _ => none) (fun _ => none) validSixAnswers
      [("consent_to_credit_check", "YES")] "consent_to_credit_check"
      = some (.boolVal true) := rfl
  unfold wellTypedApplicationAnswers
  rw [hfn, hage, hes, hmi, hra, hpu, hcc]
  simp only [Bool.and_eq_true, decide_eq_true_eq]
  norm_num

/-! ## Conversation state machine (`main_app.handle_incoming_message`)

Embeds `main_app.py` lines 1228-1451.  Outbound traffic is abstracted to
`BotAction` labels (one per helper the handler calls); state transitions
are exact.  The wall-clock inactivity test
`minutes_since(previous_activity) > INACTIVITY_MINUTES` enters as the
boolean `inactivityExceeded` of the handler environment, and the stored
loan record / profile flag enter as `hasLoanRecord` /
`profileIsExisting`. -/

/-- A normalized inbound event: optional button-reply id, optional
mapped form-field payload, optional message text (as produced by
`extract_button_reply_id`, `form_answers_from_message`,
`extract_message_text`). -/
structure Event where
  replyId : Option String
  formAnswers : Option (List (String × String))
  text : Option String

/-- `normalized = text.strip().lower() if text else ""`. -/
def normalizedText (ev : Event) : String :=
  match ev.text with
  | some t => pyLower (pyStrip t)
  | none => ""

/-- The language-token recognition of the language-selection block
(`main_app.py` lines 1299-1307): the two button ids, then the numbered
choices "1" and "2". -/
def langChoiceOf (ev : Event) : Option String :=
  if ev.replyId = some "lang_en" then some "en"
  else if ev.replyId = some "lang_hi" then some "hi"
  else if normalizedText ev = "1" then some "en"
  else if normalizedText ev = "2" then some "hi"
  else none

def applyKeywords : List String :=
  ["apply", "loan", "new loan", "finance", "onboarding", "start", "continue"]

def supportKeywords : List String :=
  ["support", "help", "emi", "statement", "status", "issue", "problem",
   "track", "agent"]

def postDisbursalKeywords : List String :=
  ["balance", "emi", "statement", "loan status", "loan details", "loan doc",
   "document", "repayment", "pay", "disbursal"]

/-- `intent_from_text`: substring match against the keyword groups, in
the dict's insertion order (apply, support, post_disbursal). -/
def intent_from_text (text : String) : Option String :=
  if applyKeywords.any (fun kw => hasSub kw (pyLower text)) then some "apply"
  else if supportKeywords.any (fun kw => hasSub kw (pyLower text)) then some "support"
  else if postDisbursalKeywords.any (fun kw => hasSub kw (pyLower text)) then
    some "post_disbursal"
  else none

/-- One outbound interaction of the handler, labelled by the helper the
source calls; the decision/support/form reply contents are covered by
the decision-engine and matcher theorems above, not re-derived here. -/
inductive BotAction where
  | welcomeAndLanguagePrompt
  | languageButtons
  | invalidLanguageReminder
  | intentPrompt (language : String) (isExisting : Bool)
  | formMergeReplies
  | dropoffNotice
  | loanFlowPrompt
  | supportPromptAndMenu (language : String)
  | acceptAck
  | supportShortcutReply (shortcut : ℕ)
  | agentHandoffReplies
  | textOnlyWarning
  | postDisbursalReply
  | supportFreeTextHandled
  | onboardingIntro
  | flowSentReminder
  | fallbackIntent
deriving DecidableEq

/-- Modelled from the spec: the `ConversationState` dataclass is
imported from the `db_io` module, which is not among the sources.  Its
fields follow spec §3 — `language`, `journey`, `isExisting`, `answers`,
the two awaiting flags, and `languagePrompted` ("boolean guarding
against repeatedly resending the language picker") — and its use in
`main_app.handle_incoming_message`. -/
structure ConversationState where
  language : Option String
  journey : Option String
  is_existing : Option Bool
  answers : String → Option AnswerValue
  awaiting_support_details : Bool
  awaiting_flow_completion : Bool
  language_prompted : Bool

/-- Modelled from the spec: `reset(keep_language=True)` clears journey,
answers and all flags (spec §4.4 rule 1; twin dataclass in
`finhackers.py` lines 522-529), keeping the chosen language when
asked. -/
def ConversationState.reset (st : ConversationState) (keepLanguage : Bool) :
    ConversationState :=
  { language := if keepLanguage then st.language else none
    journey := none
    is_existing := none
    answers := (fun _ => none)
    awaiting_support_details := false
    awaiting_flow_completion := false
    language_prompted := false }

/-- The collaborator facts `handle_incoming_message` consults. -/
structure HandlerEnv where
  profileIsExisting : Bool
  hasLoanRecord : Bool
  inactivityExceeded : Bool

/-- `start_onboarding`: set the journey, clear answers, expect the flow,
send intro and form prompt. -/
def startOnboarding (st : ConversationState) : ConversationState × List BotAction :=
  ({ st with
      journey := some "onboarding"
      answers := (fun _ => none)
      awaiting_flow_completion := true },
   [.onboardingIntro, .loanFlowPrompt])

/-- The journey switch to support used by the `intent_support` button
and the onboarding escape hatch (clears the flow-wait flag). -/
def enterSupport (lang : String) (st : ConversationState) :
    ConversationState × List BotAction :=
  ({ st with
      journey := some "support"
      awaiting_flow_completion := false
      awaiting_support_details := true
      answers := (fun _ => none) },
   [.supportPromptAndMenu lang])

section StateMachine

variable (parseIntFn : String → Option ℤ) (parseFloatFn : String → Option ℚ)
variable (buildOk : (String → Option AnswerValue) → Bool)

/-- The state/action effect of `handle_form_submission`: the validation
merge, then — when all required fields are present — finalization.  The
`KeyError` guard in `finalize_onboarding` is unreachable (completeness
was just checked), but a pydantic `ValidationError` from the
`LoanApplication(**answers)` construction is NOT caught there: when the
constructor (oracle `buildOk`) rejects the merged answers, the exception
propagates before any further state change, leaving the merged answers
in place; only on acceptance does finalization reach
`state.reset(keep_language=True)`. -/
def formSubmissionStep (st : ConversationState) (form : List (String × String)) :
    ConversationState × List BotAction :=
  let merged := mergeFormAnswers parseIntFn parseFloatFn st.answers form
  if answersComplete merged && buildOk merged then
    (ConversationState.reset { st with answers := merged } true, [.formMergeReplies])
  else
    ({ st with answers := merged }, [.formMergeReplies])

/-- The dispatch that runs once a language is fixed (`main_app.py` lines
1335-1444): button replies first, then text-only fallbacks, then the
journey-specific text rules. -/
def dispatchWithLanguage (env : HandlerEnv) (lang : String)
    (st : ConversationState) (ev : Event) : ConversationState × List BotAction :=
  let normalized := normalizedText ev
  if ev.replyId = some "flow_open" then (st, [.loanFlowPrompt])
  else if ev.replyId = some "intent_apply" then startOnboarding st
  else if ev.replyId = some "intent_support" then enterSupport lang st
  else if ev.replyId = some "post_accept" then (st, [.acceptAck])
  else if ev.replyId = some "support_payment" then
    (st.reset true, [.supportShortcutReply 0])
  else if ev.replyId = some "support_status" then
    (st.reset true, [.supportShortcutReply 1])
  else if ev.replyId = some "support_docs" then
    (st.reset true, [.supportShortcutReply 2])
  else if ev.replyId = some "support_repayment_change" then
    (st.reset true, [.supportShortcutReply 3])
  else if ev.replyId = some "support_btn_agent" then
    (st.reset true, [.agentHandoffReplies])
  else
    match ev.text with
    | none => (st, [.textOnlyWarning])
    | some _ =>
      if normalized = "accept" ∨ normalized = "accepted" ∨ normalized = "accept offer" then
        (st, [.acceptAck])
      else
        match st.journey with
        | none =>
            if intent_from_text normalized = some "apply" then startOnboarding st
            else if intent_from_text normalized = some "support" then
              ({ st with
                  journey := some "support"
                  awaiting_support_details := true
                  answers := (fun _ => none) },
               [.supportPromptAndMenu lang])
            else if intent_from_text normalized = some "post_disbursal"
                ∧ env.hasLoanRecord then
              (st, [.postDisbursalReply])
            else (st, [.intentPrompt lang env.profileIsExisting])
        | some j =>
            if j = "onboarding" then
              if normalized = "support" ∨ normalized = "help" then enterSupport lang st
              else if st.awaiting_flow_completion then
                (st, [.flowSentReminder, .loanFlowPrompt])
              else (st, [.fallbackIntent])
            else if j = "support" then
              if normalized = "apply" ∨ normalized = "loan" then startOnboarding st
              else if normalized = "support" ∨ normalized = "help" then
                ({ st with awaiting_support_details := true },
                 [.supportPromptAndMenu lang])
              else if env.hasLoanRecord ∧ normalized ∈
                  ["balance", "emi", "statement", "docs", "document", "repayment"] then
                (st, [.postDisbursalReply])
              else
                (ConversationState.reset
                  { st with awaiting_support_details := true } true,
                 [.supportFreeTextHandled])
            else (st, [])

/-- `handle_incoming_message` (`main_app.py` lines 1228-1451): the
"language" reset command first, then form payloads, then language
selection, then the inactivity nudge followed by the main dispatch. -/
def handle_incoming_message (env : HandlerEnv) (st0 : ConversationState)
    (ev : Event) : ConversationState × List BotAction :=
  let normalized := normalizedText ev
  let language0 := st0.language.getD "en"
  let st := { st0 with is_existing := some env.profileIsExisting }
  if normalized = "language" then
    ({ st with
        language := none
        journey := none
        answers := (fun _ => none)
        awaiting_support_details := false
        awaiting_flow_completion := false
        language_prompted := false },
     [.welcomeAndLanguagePrompt, .languageButtons])
  else
    match ev.formAnswers with
    | some form =>
        formSubmissionStep parseIntFn parseFloatFn buildOk
          { st with language := some language0, journey := some "onboarding" } form
    | none =>
      match st.language with
      | none =>
          match langChoiceOf ev with
          | some lc =>
              ({ st with language := some lc, language_prompted := false },
               [.intentPrompt lc env.profileIsExisting])
          | none =>
              if st.language_prompted then
                (st, [.invalidLanguageReminder, .languageButtons])
              else
                ({ st with language_prompted := true },
                 [.welcomeAndLanguagePrompt, .languageButtons])
      | some lang =>
          let hit := env.inactivityExceeded && st.journey.isSome
          let st2 := if hit then
              { st with
                  journey := none
                  answers := (fun _ => none)
                  awaiting_flow_completion := false
                  awaiting_support_details := false }
            else st
          let res := dispatchWithLanguage env lang st2 ev
          (res.1, (if hit then [BotAction.dropoffNotice] else []) ++ res.2)

end StateMachine

/-! ## C7: the language-reset command -/

/-- C7 counterexample: an inbound text reading literally "change
language" does NOT trigger the reset rule — the handler leaves the
chosen language in place and falls through to the intent prompt (the
command the code recognizes is the bare word "language"). -/
theorem handler_change_language_counterexample :
    ((handle_incoming_message (fun _ => none) (fun _ => none) (fun _ => true)
        ⟨false, false, false⟩
        ⟨some "en", none, none, (fun _ => none), false, false, false⟩
        ⟨none, none, some "change language"⟩).1.language = some "en") ∧
    ((handle_incoming_message (fun _ => none) (fun _ => none) (fun _ => true)
        ⟨false, false, false⟩
        ⟨some "en", none, none, (fun _ => none), false, false, false⟩
        ⟨none, none, some "change language"⟩).2
      = [BotAction.intentPrompt "en" false]) :=
  ⟨rfl, rfl⟩

/-- C7 (amended): for every conversation state and every inbound event
whose text normalizes (strip + lowercase) to the literal command
"language", the handler resets language, journey, answers and all flags
(including the language-prompted flag) and re-sends the language prompt;
this branch runs before every other transition rule, so it wins for that
event regardless of buttons, forms, journey or inactivity. -/
theorem handler_language_reset_command
    (parseIntFn : String → Option ℤ) (parseFloatFn : String → Option ℚ)
    (buildOk : (String → Option AnswerValue) → Bool)
    (env : HandlerEnv) (st : ConversationState) (ev : Event)
    (h : normalizedText ev = "language") :
    handle_incoming_message parseIntFn parseFloatFn buildOk env st ev =
      ({ language := none
         journey := none
         is_existing := some env.profileIsExisting
         answers := (fun _ => none)
         awaiting_support_details := false
         awaiting_flow_completion := false
         language_prompted := false },
       [.welcomeAndLanguagePrompt, .languageButtons]) := by
  simp [handle_incoming_message, h]

/-- Witness for C7 (amended): the text " Language " (which strips and
lowers to "language") resets a mid-support conversation back to
language selection. -/
theorem handler_language_reset_command_witness :
    handle_incoming_message (fun _ => none) (fun _ => none) (fun _ => true)
        ⟨true, false, false⟩
        ⟨some "hi", some "support", some true, (fun _ => none), true, false, true⟩
        ⟨none, none, some " Language "⟩ =
      ({ language := none
         journey := none
         is_existing := some true
         answers := (fun _ => none)
         awaiting_support_details := false
         awaiting_flow_completion := false
         language_prompted := false },
       [.welcomeAndLanguagePrompt, .languageButtons]) :=
  handler_language_reset_command (fun _ => none) (fun _ => none) (fun _ => true)
    ⟨true, false, false⟩
    ⟨some "hi", some "support", some true, (fun _ => none), true, false, true⟩
    ⟨none, none, some " Language "⟩ (by decide)

/-! ## C6: language selection with bounded re-prompting -/

/-- C6 counterexample: while the language is unset, the reply "english"
(a language alias recognized only by the other handler variant) does NOT
set the language — the handler treats it as a miss and re-sends the full
language prompt. -/
theorem handler_language_alias_counterexample :
    ((handle_incoming_message (fun _ => none) (fun _ => none) (fun _ => true)
        ⟨false, false, false⟩
        ⟨none, none, none, (fun _ => none), false, false, false⟩
        ⟨none, none, some "english"⟩).1.language = none) ∧
    ((handle_incoming_message (fun _ => none) (fun _ => none) (fun _ => true)
        ⟨false, false, false⟩
        ⟨none, none, none, (fun _ => none), false, false, false⟩
        ⟨none, none, some "english"⟩).2
      = [BotAction.welcomeAndLanguagePrompt, BotAction.languageButtons]) :=
  ⟨rfl, rfl⟩

/-- C6 (amended): while the language is unset (and the event is neither
a form payload nor the literal "language" command), an event carrying a
recognized language token — the `lang_en`/`lang_hi` button ids or the
numbered choices "1"/"2"; text aliases such as "english" are NOT
recognized by this handler — sets the language, clears the
language-prompted flag and sends the intent prompt; an unrecognized
reply gets the full language prompt on the first miss and only the
shorter invalid-language reminder on every consecutive later miss, so
the full picker is never sent twice in a row during language
selection. -/
theorem handler_language_selection
    (parseIntFn : String → Option ℤ) (parseFloatFn : String → Option ℚ)
    (buildOk : (String → Option AnswerValue) → Bool)
    (env : HandlerEnv) (st : ConversationState) (ev : Event)
    (hlang : st.language = none) (hform : ev.formAnswers = none)
    (hcmd : normalizedText ev ≠ "language") :
    (∀ lc, langChoiceOf ev = some lc →
      (handle_incoming_message parseIntFn parseFloatFn buildOk env st ev).1.language = some lc ∧
      (handle_incoming_message parseIntFn parseFloatFn buildOk env st ev).1.language_prompted
        = false ∧
      (handle_incoming_message parseIntFn parseFloatFn buildOk env st ev).2
        = [.intentPrompt lc env.profileIsExisting]) ∧
    (langChoiceOf ev = none →
      (handle_incoming_message parseIntFn parseFloatFn buildOk env st ev).1.language = none ∧
      (handle_incoming_message parseIntFn parseFloatFn buildOk env st ev).1.language_prompted
        = true ∧
      (st.language_prompted = false →
        (handle_incoming_message parseIntFn parseFloatFn buildOk env st ev).2
          = [.welcomeAndLanguagePrompt, .languageButtons]) ∧
      (st.language_prompted = true →
        (handle_incoming_message parseIntFn parseFloatFn buildOk env st ev).2
          = [.invalidLanguageReminder, .languageButtons])) ∧
    (BotAction.welcomeAndLanguagePrompt ∈
        (handle_incoming_message parseIntFn parseFloatFn buildOk env st ev).2 →
      st.language_prompted = false) := by
  refine ⟨?_, ?_, ?_⟩
  · intro lc hch
    simp [handle_incoming_message, hform, hlang, hcmd, hch]
  · intro hch
    by_cases hp : st.language_prompted <;>
      simp [handle_incoming_message, hform, hlang, hcmd, hch, hp]
  · rcases hch : langChoiceOf ev with _ | lc <;>
      by_cases hp : st.language_prompted <;>
        simp [handle_incoming_message, hform, hlang, hcmd, hch, hp]

/-- Witness for C6 (amended): from a fresh conversation, tapping the
English language button sets the language and advances to the intent
prompt. -/
theorem handler_language_selection_witness :
    (handle_incoming_message (fun _ => none) (fun _ => none) (fun _ => true)
        ⟨false, false, false⟩
        ⟨none, none, none, (fun _ => none), false, false, false⟩
        ⟨some "lang_en", none, some "English"⟩).1.language = some "en" ∧
    (handle_incoming_message (fun _ => none) (fun _ => none) (fun _ => true)
        ⟨false, false, false⟩
        ⟨none, none, none, (fun _ => none), false, false, false⟩
        ⟨some "lang_en", none, some "English"⟩).1.language_prompted = false ∧
    (handle_incoming_message (fun _ => none) (fun _ => none) (fun _ => true)
        ⟨false, false, false⟩
        ⟨none, none, none, (fun _ => none), false, false, false⟩
        ⟨some "lang_en", none, some "English"⟩).2
      = [.intentPrompt "en" false] :=
  (handler_language_selection (fun _ => none) (fun _ => none) (fun _ => true)
      ⟨false, false, false⟩
      ⟨none, none, none, (fun _ => none), false, false, false⟩
      ⟨some "lang_en", none, some "English"⟩
      rfl rfl (by decide)).1 "en" rfl

end Finhackers
